import Mathlib

/-!
Shallow embedding of `src/script.js` (barbarian-intros profile viewer).

The source file holds two concatenated variants of the same script:

* Variant 1 (lines 1-236): per-profile carousel state. The global
  `carouselIndices` array stores one image index per profile card, and
  `updateProfile` re-shows the saved image of the destination profile, so the
  carousel position persists per profile across navigation.

* Variant 2 (lines 237-650): a single global `currentCarouselIndex`.
  `updateProfile` always shows image 0 of the destination profile and resets
  `currentCarouselIndex` to 0. Reacting with "pass" opens a second (reject)
  modal, and the keydown handler checks only the coffee modal before
  processing keys.

Both variants are embedded below, in namespaces `V1` and `V2`. The DOM
structure each script reads (the `.profile-card` elements and the
`.carousel-image` elements inside each) is abstracted as a list of image
counts, one entry per profile card. DOM mutations the script performs
(classList changes, `style.display`, `innerHTML`, `scrollTop`) are the
presentation-layer calls; the `V2` embedding returns them as an explicit
trace of `Effect`s alongside the state.
-/

namespace BarbarianIntros

/-- The static DOM the script queries: one entry per `.profile-card` element,
giving the number of `.carousel-image` elements inside that card.
`totalProfiles` in the script is `dom.length`. -/
abbrev Dom := List Nat

/-- The carousel bounds check from both variants:
`Math.max(0, Math.min(old + direction, images.length - 1))`, computed over
integers exactly as JS does (only called when `images.length` is nonzero). -/
def boundedStep (old : Nat) (direction : Int) (len : Nat) : Nat :=
  (max 0 (min ((old : Int) + direction) ((len : Int) - 1))).toNat

namespace V1

/-- Mutable state of variant 1 (script.js lines 17-23 plus the DOM classes the
script toggles): `currentProfileIndex`, the per-profile `carouselIndices`
array, and which profile card currently carries the `active` class. -/
structure State where
  currentProfileIndex : Nat
  carouselIndices : List Nat
  activeCard : Option Nat
deriving Repr, DecidableEq

/-- Number of images `document.querySelectorAll(".profile-card.active
.carousel-image")` finds: the image count of the card with class `active`,
zero when no card is active. -/
def activeImages (dom : Dom) (s : State) : Nat :=
  match s.activeCard with
  | some j => dom.getD j 0
  | none => 0

/-- Variant 1 `profileCarousel(direction)` (script.js lines 27-44): no-op when
the active card has no images, otherwise clamps
`carouselIndices[currentProfileIndex] + direction` into `[0, images.length-1]`
and stores it back at `currentProfileIndex`. -/
def profileCarousel (dom : Dom) (direction : Int) (s : State) : State :=
  let images := activeImages dom s
  if images = 0 then s
  else
    let activeProfile := s.currentProfileIndex
    let next := boundedStep (s.carouselIndices.getD activeProfile 0) direction images
    { s with carouselIndices := s.carouselIndices.set activeProfile next }

/-- Variant 1 `updateProfile()` (script.js lines 47-65): removes `active` from
every card, then, if `profiles[currentProfileIndex]` exists, marks that card
active and re-shows the image saved in `carouselIndices[currentProfileIndex]`.
It never writes to `carouselIndices`. -/
def updateProfile (dom : Dom) (s : State) : State :=
  if s.currentProfileIndex < dom.length then
    { s with activeCard := some s.currentProfileIndex }
  else
    { s with activeCard := none }

/-- Variant 1 `nextProfile()` (script.js lines 68-75): increments the index and
refreshes the display only when not already at the last profile. -/
def nextProfile (dom : Dom) (s : State) : State :=
  if s.currentProfileIndex < dom.length - 1 then
    updateProfile dom { s with currentProfileIndex := s.currentProfileIndex + 1 }
  else s

/-- Variant 1 `previousProfile()` (script.js lines 78-84): decrements the index
and refreshes the display only when not already at the first profile. -/
def previousProfile (dom : Dom) (s : State) : State :=
  if 0 < s.currentProfileIndex then
    updateProfile dom { s with currentProfileIndex := s.currentProfileIndex - 1 }
  else s

/-- A navigation input: a `goToNext` or `goToPrevious` call. -/
inductive NavEvent
  | next
  | prev
deriving Repr, DecidableEq

/-- Dispatch one navigation call. -/
def navStep (dom : Dom) (e : NavEvent) (s : State) : State :=
  match e with
  | .next => nextProfile dom s
  | .prev => previousProfile dom s

/-- Apply a sequence of navigation calls in order. -/
def applyNavs (dom : Dom) (evs : List NavEvent) (s : State) : State :=
  evs.foldl (fun t e => navStep dom e t) s

end V1

namespace V2

/-- One DOM mutation variant 2 performs: these are the presentation-layer
calls. Modal id 0 is `coffeeModal`, id 1 is `rejectModal`; placeholder 0 is
`.qr-code-placeholder`, placeholder 1 is `.qr-code-placeholder2`. -/
inductive Effect
  | removeCardClasses (card : Nat)
  | hideImagesOf (card : Nat)
  | addActiveCard (card : Nat)
  | addActiveImage (card : Nat) (img : Nat)
  | removeActiveImage (card : Nat) (img : Nat)
  | addFadeOut (card : Nat)
  | hideCard (card : Nat)
  | setMatchTitle (modalId : Nat)
  | setMatchDesc (modalId : Nat) (text : String)
  | showModal (modalId : Nat)
  | hideModal (modalId : Nat)
  | setQrHtml (placeholder : Nat) (html : String)
  | qrShow (placeholder : Nat)
  | qrHide (placeholder : Nat)
  | appContainerHide
  | appContainerShow
  | scrollReset
  | scrollBy (delta : Int)
deriving Repr, DecidableEq

/-- Mutable state of variant 2 (script.js lines 247-253 plus the DOM bits the
script toggles): the profile index, the single shared carousel index, which
card carries the `active` class, whether each modal has `display: flex`, and
the `innerHTML` of each QR placeholder. -/
structure State where
  currentProfileIndex : Nat
  currentCarouselIndex : Nat
  activeCard : Option Nat
  coffeeOpen : Bool
  rejectOpen : Bool
  qrContent : String
  qr2Content : String
deriving Repr, DecidableEq

/-- Variant 2 `updateProfile()` (script.js lines 296-315): hides every card and
every image, then, if `profiles[currentProfileIndex]` exists, activates it and
shows its image 0, resetting `currentCarouselIndex` to 0 whenever the card has
at least one image. -/
def updateProfile (dom : Dom) (s : State) : State × List Effect :=
  let hideFx := (List.range dom.length).flatMap
    (fun i => [Effect.removeCardClasses i, Effect.hideImagesOf i])
  if s.currentProfileIndex < dom.length then
    let i := s.currentProfileIndex
    if 0 < dom.getD i 0 then
      ({ s with activeCard := some i, currentCarouselIndex := 0 },
        hideFx ++ [Effect.addActiveCard i, Effect.addActiveImage i 0])
    else
      ({ s with activeCard := some i }, hideFx ++ [Effect.addActiveCard i])
  else
    ({ s with activeCard := none }, hideFx)

/-- Variant 2 `nextProfile()` (script.js lines 325-333): when not at the last
profile, increments the index, refreshes the display and resets scroll. -/
def nextProfile (dom : Dom) (s : State) : State × List Effect :=
  if s.currentProfileIndex < dom.length - 1 then
    let r := updateProfile dom { s with currentProfileIndex := s.currentProfileIndex + 1 }
    (r.1, r.2 ++ [Effect.scrollReset])
  else (s, [])

/-- Variant 2 `previousProfile()` (script.js lines 343-350): when not at the
first profile, decrements the index, refreshes the display and resets
scroll. -/
def previousProfile (dom : Dom) (s : State) : State × List Effect :=
  if 0 < s.currentProfileIndex then
    let r := updateProfile dom { s with currentProfileIndex := s.currentProfileIndex - 1 }
    (r.1, r.2 ++ [Effect.scrollReset])
  else (s, [])

/-- Variant 2 `profileCarousel(direction)` (script.js lines 271-286): reads the
images of the card marked `active`; no-op when there are none, else clamps
`currentCarouselIndex + direction` into bounds and swaps the `active` image
class. -/
def profileCarousel (dom : Dom) (direction : Int) (s : State) : State × List Effect :=
  match s.activeCard with
  | none => (s, [])
  | some j =>
    let images := dom.getD j 0
    if images = 0 then (s, [])
    else
      let next := boundedStep s.currentCarouselIndex direction images
      ({ s with currentCarouselIndex := next },
        [Effect.removeActiveImage j s.currentCarouselIndex, Effect.addActiveImage j next])

/-- The static `profileNames` array of variant 2 `getCurrentProfileName`
(script.js lines 409-422). -/
def profileNames : List String :=
  ["Mahima", "Jose", "Chris", "Arielle", "Claire", "Henry",
   "HungChi", "Sara", "Joshua", "Gio", "Saul"]

/-- Variant 2 `getCurrentProfileName()` (script.js lines 407-425):
`profileNames[currentProfileIndex] || "the intern"`. The JS `||` falls back
when the lookup is `undefined` (index out of range) or the empty string. -/
def getCurrentProfileName (i : Nat) : String :=
  match profileNames.get? i with
  | some n => if n = "" then "the intern" else n
  | none => "the intern"

/-- The static `qrCodes` array of variant 2 `getCurrentProfileQrCode`
(script.js lines 436-448). -/
def qrCodes : List String :=
  ["qrCodes/mahima.png", "qrCodes/jose.jpg", "qrCodes/chrisQR.png",
   "qrCodes/arielle.png", "qrCodes/claire.png", "qrCodes/henry.png",
   "qrCodes/hungchi.png", "qrCodes/sara.png", "qrCodes/joshua.png",
   "qrCodes/gio.png", "qrCodes/saul.png"]

/-- Variant 2 `getCurrentProfileQrCode()` (script.js lines 434-452):
`qrCodes[currentProfileIndex]`, with no fallback; `none` models the JS
`undefined` an out-of-range index yields. -/
def getCurrentProfileQrCode (i : Nat) : Option String :=
  qrCodes.get? i

/-- How a JS template literal renders an expression: `undefined` prints as the
string "undefined". -/
def jsString : Option String → String
  | some q => q
  | none => "undefined"

/-- The `innerHTML` string both modals assign to their QR placeholder
(script.js lines 497 and 548). -/
def qrImgHtml (q : Option String) : String :=
  "<img src=\"" ++ jsString q ++
    "\" alt=\"QR Code\" style=\"width: 100%; height: 100%; object-fit: contain;\">"

/-- The personalized `matchDesc` text both modals set
(script.js lines 488 and 539). -/
def matchDescText (name : String) : String :=
  "Connect with " ++ name ++ " by scanning the QR code below."

/-- Variant 2 `showCoffeeModal(onClose)` (script.js lines 470-519), up to
installing the close handler: sets title and description from the current
profile name, displays the modal, writes the QR image for the current profile
into the placeholder and hides the app container. The `onClose` callback runs
later, from the close-button handler (`closeCoffee`). -/
def showCoffeeModal (s : State) : State × List Effect :=
  let currentName := getCurrentProfileName s.currentProfileIndex
  let currentQrCode := getCurrentProfileQrCode s.currentProfileIndex
  ({ s with coffeeOpen := true, qrContent := qrImgHtml currentQrCode },
    [Effect.setMatchTitle 0, Effect.setMatchDesc 0 (matchDescText currentName),
     Effect.showModal 0, Effect.setQrHtml 0 (qrImgHtml currentQrCode),
     Effect.qrShow 0, Effect.appContainerHide])

/-- Variant 2 `showRejectModal(onClose)` (script.js lines 521-570), up to
installing the close handler: same shape as the coffee modal but on
`rejectModal` and `.qr-code-placeholder2`. -/
def showRejectModal (s : State) : State × List Effect :=
  let currentName := getCurrentProfileName s.currentProfileIndex
  let currentQrCode := getCurrentProfileQrCode s.currentProfileIndex
  ({ s with rejectOpen := true, qr2Content := qrImgHtml currentQrCode },
    [Effect.setMatchTitle 1, Effect.setMatchDesc 1 (matchDescText currentName),
     Effect.showModal 1, Effect.setQrHtml 1 (qrImgHtml currentQrCode),
     Effect.qrShow 1, Effect.appContainerHide])

/-- The coffee modal close handler (script.js lines 506-518): hides the modal,
resets the placeholder to `qr`, re-shows the app container, then runs the
`onClose` callback `reactToProfile` installed: `nextProfile()` followed by
`scrollAppContainerToTop()` (lines 377-382). -/
def closeCoffee (dom : Dom) (s : State) : State × List Effect :=
  let s1 := { s with coffeeOpen := false, qrContent := "qr" }
  let fx1 := [Effect.hideModal 0, Effect.qrHide 0, Effect.setQrHtml 0 "qr",
    Effect.appContainerShow]
  let r := nextProfile dom s1
  (r.1, fx1 ++ r.2 ++ [Effect.scrollReset])

/-- The reject modal close handler (script.js lines 557-569) with the
`onClose` callback installed at lines 384-387: same as `closeCoffee` on the
reject modal and placeholder 2. -/
def closeReject (dom : Dom) (s : State) : State × List Effect :=
  let s1 := { s with rejectOpen := false, qr2Content := "qr" }
  let fx1 := [Effect.hideModal 1, Effect.qrHide 1, Effect.setQrHtml 1 "qr",
    Effect.appContainerShow]
  let r := nextProfile dom s1
  (r.1, fx1 ++ r.2 ++ [Effect.scrollReset])

/-- The user verdict passed to `reactToProfile`. -/
inductive Action
  | like
  | pass
deriving Repr, DecidableEq

/-- Variant 2 `reactToProfile(action)` (script.js lines 362-390), with the
350ms fade-out timer collapsed to its follow-up (the timer always fires and no
other input is modelled in between): returns early when
`profiles[currentProfileIndex]` does not exist; otherwise fades the card out,
hides it, and opens the coffee modal on like or the reject modal on pass. -/
def reactToProfile (dom : Dom) (action : Action) (s : State) : State × List Effect :=
  if s.currentProfileIndex < dom.length then
    let i := s.currentProfileIndex
    let sHidden := { s with activeCard := if s.activeCard = some i then none else s.activeCard }
    let fx0 := [Effect.addFadeOut i, Effect.hideCard i]
    match action with
    | .like =>
      let r := showCoffeeModal sHidden
      (r.1, fx0 ++ r.2)
    | .pass =>
      let r := showRejectModal sHidden
      (r.1, fx0 ++ r.2)
  else (s, [])

/-- A key the keydown handler distinguishes. -/
inductive Key
  | arrowLeft
  | arrowRight
  | enter
  | arrowUp
  | arrowDown
  | other
deriving Repr, DecidableEq

/-- Variant 2 keydown handler (script.js lines 596-623): returns early when
`coffeeModal` has `display: flex` — and only then; the reject modal is not
checked. Arrow left and right navigate, enter likes, up and down scroll the
app container. -/
def keydown (dom : Dom) (key : Key) (s : State) : State × List Effect :=
  if s.coffeeOpen then (s, [])
  else
    match key with
    | .arrowLeft => previousProfile dom s
    | .arrowRight => nextProfile dom s
    | .enter => reactToProfile dom Action.like s
    | .arrowUp => (s, [Effect.scrollBy (-60)])
    | .arrowDown => (s, [Effect.scrollBy 60])
    | .other => (s, [])

/-- The state the globals of variant 2 denote before the trailing
`updateProfile()` call at script load (lines 247-253; the QR placeholders hold
their static `qr` text). -/
def startState : State :=
  { currentProfileIndex := 0, currentCarouselIndex := 0, activeCard := none,
    coffeeOpen := false, rejectOpen := false, qrContent := "qr", qr2Content := "qr" }

/-- The state after the script-load `updateProfile()` call (line 632). -/
def initState (dom : Dom) : State :=
  (updateProfile dom startState).1

/-- One discrete input, mapping to the handler the UI would invoke: nav button
clicks, carousel arrows, like and pass buttons, and the two modal OK buttons.
A modal OK button is only clickable while its modal is displayed (its
handler is installed by the show call and the hidden button cannot fire), so
the close events are guarded by the corresponding open flag. -/
inductive Event
  | next
  | prev
  | carousel (direction : Int)
  | react (action : Action)
  | closeCoffeeBtn
  | closeRejectBtn
deriving Repr, DecidableEq

/-- Dispatch one input event to variant 2 handlers. -/
def step (dom : Dom) (e : Event) (s : State) : State × List Effect :=
  match e with
  | .next => nextProfile dom s
  | .prev => previousProfile dom s
  | .carousel d => profileCarousel dom d s
  | .react a => reactToProfile dom a s
  | .closeCoffeeBtn => if s.coffeeOpen then closeCoffee dom s else (s, [])
  | .closeRejectBtn => if s.rejectOpen then closeReject dom s else (s, [])

/-- Run a sequence of input events, accumulating the presentation trace. -/
def run (dom : Dom) (evs : List Event) (s : State) : State × List Effect :=
  match evs with
  | [] => (s, [])
  | e :: rest =>
    let r1 := step dom e s
    let r2 := run dom rest r1.1
    (r2.1, r1.2 ++ r2.2)

/-- Is this event a plain navigation input (`goToNext` or `goToPrevious`)? -/
def isNavEvent : Event → Bool
  | .next => true
  | .prev => true
  | _ => false

/-- Does a presentation trace make some profile card visible? -/
def showsProfile (fx : List Effect) : Bool :=
  fx.any fun e =>
    match e with
    | .addActiveCard _ => true
    | _ => false

/-- Does a presentation trace open a modal dialog? -/
def opensDialog (fx : List Effect) : Bool :=
  fx.any fun e =>
    match e with
    | .showModal _ => true
    | _ => false

end V2

/-- The clamp operation as the spec words it: `clamp(x, lo, hi)` holds `x` into
the interval `[lo, hi]`. Stated separately from the code's
`Math.max`/`Math.min` composition so the two can be compared. -/
def specClamp (x lo hi : Int) : Int :=
  max lo (min x hi)

section Lemmas

open V1 V2

theorem V1.navStep_carouselIndices (dom : Dom) (e : V1.NavEvent) (s : V1.State) :
    (V1.navStep dom e s).carouselIndices = s.carouselIndices := by
  cases e <;>
    simp only [V1.navStep, V1.nextProfile, V1.previousProfile, V1.updateProfile] <;>
    split <;> (try split) <;> rfl

theorem V1.applyNavs_carouselIndices (dom : Dom) (evs : List V1.NavEvent) (s : V1.State) :
    (V1.applyNavs dom evs s).carouselIndices = s.carouselIndices := by
  induction evs generalizing s with
  | nil => rfl
  | cons e rest ih =>
      have h : V1.applyNavs dom (e :: rest) s = V1.applyNavs dom rest (V1.navStep dom e s) := rfl
      rw [h, ih, V1.navStep_carouselIndices]

theorem V1.profileCarousel_currentProfileIndex (dom : Dom) (d : Int) (s : V1.State) :
    (V1.profileCarousel dom d s).currentProfileIndex = s.currentProfileIndex := by
  simp only [V1.profileCarousel]
  split <;> rfl

theorem V1.profileCarousel_activeCard (dom : Dom) (d : Int) (s : V1.State) :
    (V1.profileCarousel dom d s).activeCard = s.activeCard := by
  simp only [V1.profileCarousel]
  split <;> rfl

theorem V1.profileCarousel_length (dom : Dom) (d : Int) (s : V1.State) :
    (V1.profileCarousel dom d s).carouselIndices.length = s.carouselIndices.length := by
  simp only [V1.profileCarousel]
  split
  · rfl
  · simp

theorem V1.profileCarousel_zero_images (dom : Dom) (d : Int) (s : V1.State)
    (hact : s.activeCard = some s.currentProfileIndex)
    (hk : dom.getD s.currentProfileIndex 0 = 0) :
    V1.profileCarousel dom d s = s := by
  simp only [V1.profileCarousel, V1.activeImages, hact, hk]
  rfl

theorem V1.profileCarousel_getD (dom : Dom) (d : Int) (s : V1.State)
    (hact : s.activeCard = some s.currentProfileIndex)
    (hk : 0 < dom.getD s.currentProfileIndex 0)
    (hlen : s.currentProfileIndex < s.carouselIndices.length) :
    (V1.profileCarousel dom d s).carouselIndices.getD s.currentProfileIndex 0 =
      boundedStep (s.carouselIndices.getD s.currentProfileIndex 0) d
        (dom.getD s.currentProfileIndex 0) := by
  simp only [V1.profileCarousel, V1.activeImages, hact]
  rw [if_neg (by omega)]
  rw [List.getD_eq_getElem _ _ (by simpa using hlen)]
  simp

theorem getD_set_ne (l : List Nat) (i B v : Nat) (h : B ≠ i) :
    (l.set i v).getD B 0 = l.getD B 0 := by
  rw [List.getD_eq_getD_get?, List.getD_eq_getD_get?, List.get?_eq_getElem?,
    List.get?_eq_getElem?, List.getElem?_set_ne (Ne.symm h)]

theorem boundedStep_pos_one (old k : Nat) (h : old < k) :
    boundedStep old 1 k = min (old + 1) (k - 1) := by
  simp only [boundedStep]
  rw [max_def, min_def]
  split_ifs <;> omega

theorem boundedStep_neg_one (old k : Nat) (h : old < k) :
    boundedStep old (-1) k = old - 1 := by
  simp only [boundedStep]
  rw [max_def, min_def]
  split_ifs <;> omega

theorem V1.iterate_carousel_plus (dom : Dom) (k : Nat) (hk1 : 1 ≤ k) :
    ∀ (n : Nat) (s : V1.State),
      s.activeCard = some s.currentProfileIndex →
      dom.getD s.currentProfileIndex 0 = k →
      s.currentProfileIndex < s.carouselIndices.length →
      s.carouselIndices.getD s.currentProfileIndex 0 < k →
      ((fun t => V1.profileCarousel dom 1 t)^[n] s).carouselIndices.getD
          s.currentProfileIndex 0 =
        min (s.carouselIndices.getD s.currentProfileIndex 0 + n) (k - 1) := by
  intro n
  induction n with
  | zero =>
      intro s _ _ _ hpos
      simp only [Function.iterate_zero, id_eq]
      omega
  | succ m ih =>
      intro s hact hk hlen hpos
      rw [Function.iterate_succ_apply]
      have hstep : (V1.profileCarousel dom 1 s).carouselIndices.getD
          s.currentProfileIndex 0 = min (s.carouselIndices.getD s.currentProfileIndex 0 + 1)
            (k - 1) := by
        rw [V1.profileCarousel_getD dom 1 s hact (by omega) hlen, hk]
        exact boundedStep_pos_one _ _ hpos
      have hidx := V1.profileCarousel_currentProfileIndex dom 1 s
      have hres := ih (V1.profileCarousel dom 1 s)
        (by rw [V1.profileCarousel_activeCard, hidx, hact])
        (by rw [hidx, hk])
        (by rw [V1.profileCarousel_length, hidx]; exact hlen)
        (by rw [hidx, hstep]; omega)
      rw [hidx] at hres
      rw [hres, hstep]
      omega

theorem V1.iterate_carousel_minus (dom : Dom) (k : Nat) (hk1 : 1 ≤ k) :
    ∀ (n : Nat) (s : V1.State),
      s.activeCard = some s.currentProfileIndex →
      dom.getD s.currentProfileIndex 0 = k →
      s.currentProfileIndex < s.carouselIndices.length →
      s.carouselIndices.getD s.currentProfileIndex 0 < k →
      ((fun t => V1.profileCarousel dom (-1) t)^[n] s).carouselIndices.getD
          s.currentProfileIndex 0 =
        s.carouselIndices.getD s.currentProfileIndex 0 - n := by
  intro n
  induction n with
  | zero =>
      intro s _ _ _ _
      simp only [Function.iterate_zero, id_eq]
      omega
  | succ m ih =>
      intro s hact hk hlen hpos
      rw [Function.iterate_succ_apply]
      have hstep : (V1.profileCarousel dom (-1) s).carouselIndices.getD
          s.currentProfileIndex 0 = s.carouselIndices.getD s.currentProfileIndex 0 - 1 := by
        rw [V1.profileCarousel_getD dom (-1) s hact (by omega) hlen, hk]
        exact boundedStep_neg_one _ _ hpos
      have hidx := V1.profileCarousel_currentProfileIndex dom (-1) s
      have hres := ih (V1.profileCarousel dom (-1) s)
        (by rw [V1.profileCarousel_activeCard, hidx, hact])
        (by rw [hidx, hk])
        (by rw [V1.profileCarousel_length, hidx]; exact hlen)
        (by rw [hidx, hstep]; omega)
      rw [hidx] at hres
      rw [hres, hstep]
      omega

theorem V2.updateProfile_currentProfileIndex (dom : Dom) (s : V2.State) :
    (V2.updateProfile dom s).1.currentProfileIndex = s.currentProfileIndex := by
  simp only [V2.updateProfile]
  split <;> (try split) <;> rfl

theorem V2.updateProfile_flags (dom : Dom) (s : V2.State) :
    (V2.updateProfile dom s).1.coffeeOpen = s.coffeeOpen ∧
      (V2.updateProfile dom s).1.rejectOpen = s.rejectOpen ∧
      (V2.updateProfile dom s).1.qrContent = s.qrContent ∧
      (V2.updateProfile dom s).1.qr2Content = s.qr2Content := by
  simp only [V2.updateProfile]
  split <;> (try split) <;> exact ⟨rfl, rfl, rfl, rfl⟩

theorem V2.nextProfile_currentProfileIndex (dom : Dom) (s : V2.State) :
    (V2.nextProfile dom s).1.currentProfileIndex =
      if s.currentProfileIndex < dom.length - 1 then s.currentProfileIndex + 1
      else s.currentProfileIndex := by
  simp only [V2.nextProfile]
  split
  · exact V2.updateProfile_currentProfileIndex dom _
  · rfl

theorem V2.previousProfile_currentProfileIndex (dom : Dom) (s : V2.State) :
    (V2.previousProfile dom s).1.currentProfileIndex =
      if 0 < s.currentProfileIndex then s.currentProfileIndex - 1
      else s.currentProfileIndex := by
  simp only [V2.previousProfile]
  split
  · exact V2.updateProfile_currentProfileIndex dom _
  · rfl

theorem V2.nextProfile_flags (dom : Dom) (s : V2.State) :
    (V2.nextProfile dom s).1.coffeeOpen = s.coffeeOpen ∧
      (V2.nextProfile dom s).1.rejectOpen = s.rejectOpen ∧
      (V2.nextProfile dom s).1.qrContent = s.qrContent ∧
      (V2.nextProfile dom s).1.qr2Content = s.qr2Content := by
  simp only [V2.nextProfile]
  split
  · exact V2.updateProfile_flags dom _
  · exact ⟨rfl, rfl, rfl, rfl⟩

theorem V2.nextProfile_idx_lt (dom : Dom) (s : V2.State)
    (h : s.currentProfileIndex < dom.length) :
    (V2.nextProfile dom s).1.currentProfileIndex < dom.length := by
  rw [V2.nextProfile_currentProfileIndex]
  split <;> omega

theorem V2.previousProfile_idx_lt (dom : Dom) (s : V2.State)
    (h : s.currentProfileIndex < dom.length) :
    (V2.previousProfile dom s).1.currentProfileIndex < dom.length := by
  rw [V2.previousProfile_currentProfileIndex]
  split <;> omega

theorem V2.run_cons_fst (dom : Dom) (e : V2.Event) (rest : List V2.Event) (s : V2.State) :
    (V2.run dom (e :: rest) s).1 = (V2.run dom rest (V2.step dom e s).1).1 := rfl

theorem V2.run_nav_idx_lt (dom : Dom) (evs : List V2.Event)
    (hnav : evs.all V2.isNavEvent = true) (s : V2.State)
    (hs : s.currentProfileIndex < dom.length) :
    (V2.run dom evs s).1.currentProfileIndex < dom.length := by
  induction evs generalizing s with
  | nil => exact hs
  | cons e rest ih =>
      rw [List.all_cons, Bool.and_eq_true] at hnav
      rw [V2.run_cons_fst]
      refine ih hnav.2 _ ?_
      cases e with
      | next => exact V2.nextProfile_idx_lt dom s hs
      | prev => exact V2.previousProfile_idx_lt dom s hs
      | carousel d => simp [V2.isNavEvent] at hnav
      | react a => simp [V2.isNavEvent] at hnav
      | closeCoffeeBtn => simp [V2.isNavEvent] at hnav
      | closeRejectBtn => simp [V2.isNavEvent] at hnav

theorem V2.initState_currentProfileIndex (dom : Dom) :
    (V2.initState dom).currentProfileIndex = 0 :=
  V2.updateProfile_currentProfileIndex dom V2.startState

theorem V2.reactToProfile_like_fst (dom : Dom) (s : V2.State)
    (h : s.currentProfileIndex < dom.length)
    (hact : s.activeCard = some s.currentProfileIndex) :
    (V2.reactToProfile dom V2.Action.like s).1 =
      { s with activeCard := none, coffeeOpen := true, qrContent := V2.qrImgHtml (V2.getCurrentProfileQrCode s.currentProfileIndex) } := by
  simp only [V2.reactToProfile, V2.showCoffeeModal, if_pos h, hact, if_pos rfl]
  simp

theorem V2.reactToProfile_pass_fst (dom : Dom) (s : V2.State)
    (h : s.currentProfileIndex < dom.length)
    (hact : s.activeCard = some s.currentProfileIndex) :
    (V2.reactToProfile dom V2.Action.pass s).1 =
      { s with activeCard := none, rejectOpen := true, qr2Content := V2.qrImgHtml (V2.getCurrentProfileQrCode s.currentProfileIndex) } := by
  simp only [V2.reactToProfile, V2.showRejectModal, if_pos h, hact, if_pos rfl]
  simp

theorem V2.closeCoffee_at_last (dom : Dom) (s : V2.State)
    (hlast : s.currentProfileIndex = dom.length - 1) :
    V2.closeCoffee dom s =
      ({ s with coffeeOpen := false, qrContent := "qr" },
        [V2.Effect.hideModal 0, V2.Effect.qrHide 0, V2.Effect.setQrHtml 0 "qr",
          V2.Effect.appContainerShow, V2.Effect.scrollReset]) := by
  simp only [V2.closeCoffee, V2.nextProfile]
  rw [if_neg (by simp [hlast])]
  rfl

theorem V2.closeReject_at_last (dom : Dom) (s : V2.State)
    (hlast : s.currentProfileIndex = dom.length - 1) :
    V2.closeReject dom s =
      ({ s with rejectOpen := false, qr2Content := "qr" },
        [V2.Effect.hideModal 1, V2.Effect.qrHide 1, V2.Effect.setQrHtml 1 "qr",
          V2.Effect.appContainerShow, V2.Effect.scrollReset]) := by
  simp only [V2.closeReject, V2.nextProfile]
  rw [if_neg (by simp [hlast])]
  rfl

end Lemmas

/-- Claim C1: for every profile count N at least 1 and every sequence of
`goToNext`/`goToPrevious` calls from the initial state, `activeProfileIndex`
stays within `[0, N-1]` after each call (every prefix of the sequence is
itself such a sequence), and a single `nextProfile` or `previousProfile` call
changes `currentProfileIndex` by at most 1. -/
theorem C1_profile_index_invariant (dom : Dom) (hN : 1 ≤ dom.length)
    (evs : List V2.Event) (hnav : evs.all V2.isNavEvent = true) (s : V2.State) :
    (V2.run dom evs (V2.initState dom)).1.currentProfileIndex < dom.length ∧
    (((V2.nextProfile dom s).1.currentProfileIndex : Int) -
        (s.currentProfileIndex : Int)).natAbs ≤ 1 ∧
    (((V2.previousProfile dom s).1.currentProfileIndex : Int) -
        (s.currentProfileIndex : Int)).natAbs ≤ 1 := by
  refine ⟨?_, ?_, ?_⟩
  · refine V2.run_nav_idx_lt dom evs hnav _ ?_
    rw [V2.initState_currentProfileIndex]
    omega
  · rw [V2.nextProfile_currentProfileIndex]
    split <;> omega
  · rw [V2.previousProfile_currentProfileIndex]
    split <;> omega

/-- Witness for C1 at N = 2 and the call sequence next, next, prev. -/
theorem C1_profile_index_invariant_witness :
    1 ≤ ([1, 2] : Dom).length ∧
    ([V2.Event.next, V2.Event.next, V2.Event.prev].all V2.isNavEvent = true) ∧
    ((V2.run [1, 2] [V2.Event.next, V2.Event.next, V2.Event.prev]
        (V2.initState [1, 2])).1.currentProfileIndex < ([1, 2] : Dom).length ∧
      (((V2.nextProfile [1, 2] (V2.initState [1, 2])).1.currentProfileIndex : Int) -
          ((V2.initState [1, 2]).currentProfileIndex : Int)).natAbs ≤ 1 ∧
      (((V2.previousProfile [1, 2] (V2.initState [1, 2])).1.currentProfileIndex : Int) -
          ((V2.initState [1, 2]).currentProfileIndex : Int)).natAbs ≤ 1) :=
  ⟨by decide, by decide,
    C1_profile_index_invariant [1, 2] (by decide)
      [V2.Event.next, V2.Event.next, V2.Event.prev] (by decide) (V2.initState [1, 2])⟩

/-- Counterexample to claim C2 on variant 2 (the single-`currentCarouselIndex`
script, whose `updateProfile` is cited at lines 296-315): with two profiles of
two images each, advancing the carousel on profile 0 puts its displayed image
at index 1, but after navigating to profile 1 and back to profile 0 the
displayed image of profile 0 is index 0 — the carousel position did not
persist. -/
theorem C2_counterexample_v2_reset :
    (V2.profileCarousel [2, 2] 1 (V2.initState [2, 2])).1.currentCarouselIndex = 1 ∧
    (V2.initState [2, 2]).currentProfileIndex = 0 ∧
    (V2.previousProfile [2, 2] (V2.nextProfile [2, 2]
        (V2.profileCarousel [2, 2] 1 (V2.initState [2, 2])).1).1).1.currentProfileIndex = 0 ∧
    (V2.previousProfile [2, 2] (V2.nextProfile [2, 2]
        (V2.profileCarousel [2, 2] 1 (V2.initState [2, 2])).1).1).1.activeCard = some 0 ∧
    (V2.previousProfile [2, 2] (V2.nextProfile [2, 2]
        (V2.profileCarousel [2, 2] 1 (V2.initState [2, 2])).1).1).1.currentCarouselIndex = 0 := by
  decide

/-- Claim C2 as amended: in variant 1 (the per-profile `carouselIndices`
script, lines 47-65), carousel position persists independently per profile
across navigation — no sequence of `goToNext`/`goToPrevious` calls changes any
entry of `carouselIndices`, and advancing the carousel on the active profile
leaves every other profile's entry untouched. (In variant 2, a profile switch
resets the single shared carousel index to 0, as the counterexample shows.) -/
theorem C2_amended_v1_persistence (dom : Dom) (d : Int) (s : V1.State)
    (evs : List V1.NavEvent) (B : Nat) (hB : B ≠ s.currentProfileIndex) :
    (V1.applyNavs dom evs (V1.profileCarousel dom d s)).carouselIndices =
      (V1.profileCarousel dom d s).carouselIndices ∧
    (V1.profileCarousel dom d s).carouselIndices.getD B 0 =
      s.carouselIndices.getD B 0 := by
  refine ⟨V1.applyNavs_carouselIndices dom evs _, ?_⟩
  simp only [V1.profileCarousel]
  split
  · rfl
  · exact getD_set_ne _ _ _ _ hB

/-- Witness for the amended C2 with profiles A = 0 and B = 1, an advance on A,
and the navigation sequence next, prev. -/
theorem C2_amended_v1_persistence_witness :
    (1 : Nat) ≠ (V1.State.mk 0 [0, 0] (some 0)).currentProfileIndex ∧
    ((V1.applyNavs [2, 2] [V1.NavEvent.next, V1.NavEvent.prev]
        (V1.profileCarousel [2, 2] 1 (V1.State.mk 0 [0, 0] (some 0)))).carouselIndices =
      (V1.profileCarousel [2, 2] 1 (V1.State.mk 0 [0, 0] (some 0))).carouselIndices ∧
    (V1.profileCarousel [2, 2] 1 (V1.State.mk 0 [0, 0] (some 0))).carouselIndices.getD 1 0 =
      (V1.State.mk 0 [0, 0] (some 0)).carouselIndices.getD 1 0) :=
  ⟨by decide,
    C2_amended_v1_persistence [2, 2] 1 (V1.State.mk 0 [0, 0] (some 0))
      [V1.NavEvent.next, V1.NavEvent.prev] 1 (by decide)⟩

/-- Claim C4: `goToNext` at the last index and `goToPrevious` at index 0 leave
the entire state unchanged and emit no presentation call — no wraparound and
no end-of-list signal. -/
theorem C4_nav_noop_at_ends (dom : Dom) (s t : V2.State)
    (hs : s.currentProfileIndex = dom.length - 1)
    (ht : t.currentProfileIndex = 0) :
    V2.nextProfile dom s = (s, []) ∧ V2.previousProfile dom t = (t, []) := by
  constructor
  · simp only [V2.nextProfile]
    rw [if_neg (by omega)]
  · simp only [V2.previousProfile]
    rw [if_neg (by omega)]

/-- Witness for C4 with N = 2, at the last profile and at the first. -/
theorem C4_nav_noop_at_ends_witness :
    (V2.State.mk 1 0 (some 1) false false "qr" "qr").currentProfileIndex =
      ([1, 2] : Dom).length - 1 ∧
    (V2.State.mk 0 0 (some 0) false false "qr" "qr").currentProfileIndex = 0 ∧
    (V2.nextProfile [1, 2] (V2.State.mk 1 0 (some 1) false false "qr" "qr") =
        (V2.State.mk 1 0 (some 1) false false "qr" "qr", []) ∧
      V2.previousProfile [1, 2] (V2.State.mk 0 0 (some 0) false false "qr" "qr") =
        (V2.State.mk 0 0 (some 0) false false "qr" "qr", [])) :=
  ⟨by decide, by decide,
    C4_nav_noop_at_ends [1, 2] (V2.State.mk 1 0 (some 1) false false "qr" "qr")
      (V2.State.mk 0 0 (some 0) false false "qr" "qr") (by decide) (by decide)⟩

/-- Claim C5 fails on the code: with two profiles, reacting PASS opens the
reject dialog (`rejectOpen = true`, `coffeeOpen = false`), yet pressing the
right arrow while that dialog is displayed navigates — `activeProfileIndex`
moves from 0 to 1 — because the keydown handler (script.js lines 596-599)
checks only `coffeeModal` before processing keys. This theorem evaluates the
code at that failing input. -/
theorem C5_reject_dialog_key_not_suppressed :
    (V2.reactToProfile [1, 1] V2.Action.pass (V2.initState [1, 1])).1.rejectOpen = true ∧
    (V2.reactToProfile [1, 1] V2.Action.pass (V2.initState [1, 1])).1.coffeeOpen = false ∧
    (V2.reactToProfile [1, 1] V2.Action.pass (V2.initState [1, 1])).1.currentProfileIndex = 0 ∧
    (V2.keydown [1, 1] V2.Key.arrowRight
        (V2.reactToProfile [1, 1] V2.Action.pass
          (V2.initState [1, 1])).1).1.currentProfileIndex = 1 := by
  decide

/-- Claim C3: with the active profile holding k images, `stepCarousel`
(variant 1 `profileCarousel`) sets the active profile's carousel position to
`clamp(old + direction, 0, k-1)` (stated against `specClamp`, the clamp of
the spec's words); n repeated +1 steps land on `min (old + n) (k-1)`, so they
saturate at k-1 and never exceed it; n repeated -1 steps land on `old - n`,
saturating at 0; and with zero images the call is a no-op. -/
theorem C3_carousel_clamp_saturates (dom : Dom) (s : V1.State) (k n : Nat) (d : Int)
    (hact : s.activeCard = some s.currentProfileIndex)
    (hk : dom.getD s.currentProfileIndex 0 = k)
    (hlen : s.currentProfileIndex < s.carouselIndices.length)
    (hpos : k = 0 ∨ s.carouselIndices.getD s.currentProfileIndex 0 < k) :
    (k = 0 → V1.profileCarousel dom d s = s) ∧
    (1 ≤ k → (V1.profileCarousel dom d s).carouselIndices.getD s.currentProfileIndex 0 =
      (specClamp ((s.carouselIndices.getD s.currentProfileIndex 0 : Int) + d) 0
        ((k : Int) - 1)).toNat) ∧
    (1 ≤ k → ((fun t => V1.profileCarousel dom 1 t)^[n] s).carouselIndices.getD
        s.currentProfileIndex 0 =
      min (s.carouselIndices.getD s.currentProfileIndex 0 + n) (k - 1)) ∧
    (1 ≤ k → ((fun t => V1.profileCarousel dom (-1) t)^[n] s).carouselIndices.getD
        s.currentProfileIndex 0 =
      s.carouselIndices.getD s.currentProfileIndex 0 - n) := by
  have hlt : 1 ≤ k → s.carouselIndices.getD s.currentProfileIndex 0 < k := by
    intro h1
    rcases hpos with h0 | hlt
    · omega
    · exact hlt
  refine ⟨?_, ?_, ?_, ?_⟩
  · intro h0
    exact V1.profileCarousel_zero_images dom d s hact (hk.trans h0)
  · intro h1
    rw [V1.profileCarousel_getD dom d s hact (by omega) hlen, hk]
    rfl
  · intro h1
    exact V1.iterate_carousel_plus dom k h1 n s hact hk hlen (hlt h1)
  · intro h1
    exact V1.iterate_carousel_minus dom k h1 n s hact hk hlen (hlt h1)

/-- Witness for C3 with one profile of 3 images, the carousel at position 1,
direction -2 for the single-step clamp, and 5 repeated steps each way. -/
theorem C3_carousel_clamp_saturates_witness :
    (V1.State.mk 0 [1] (some 0)).activeCard =
      some (V1.State.mk 0 [1] (some 0)).currentProfileIndex ∧
    ([3] : Dom).getD (V1.State.mk 0 [1] (some 0)).currentProfileIndex 0 = 3 ∧
    (V1.State.mk 0 [1] (some 0)).currentProfileIndex <
      (V1.State.mk 0 [1] (some 0)).carouselIndices.length ∧
    ((3 = 0 → V1.profileCarousel [3] (-2) (V1.State.mk 0 [1] (some 0)) =
        V1.State.mk 0 [1] (some 0)) ∧
      (1 ≤ 3 → (V1.profileCarousel [3] (-2)
          (V1.State.mk 0 [1] (some 0))).carouselIndices.getD
            (V1.State.mk 0 [1] (some 0)).currentProfileIndex 0 =
        (specClamp (((V1.State.mk 0 [1] (some 0)).carouselIndices.getD
            (V1.State.mk 0 [1] (some 0)).currentProfileIndex 0 : Int) + (-2)) 0
          ((3 : Int) - 1)).toNat) ∧
      (1 ≤ 3 → ((fun t => V1.profileCarousel [3] 1 t)^[5]
          (V1.State.mk 0 [1] (some 0))).carouselIndices.getD
            (V1.State.mk 0 [1] (some 0)).currentProfileIndex 0 =
        min ((V1.State.mk 0 [1] (some 0)).carouselIndices.getD
            (V1.State.mk 0 [1] (some 0)).currentProfileIndex 0 + 5) (3 - 1)) ∧
      (1 ≤ 3 → ((fun t => V1.profileCarousel [3] (-1) t)^[5]
          (V1.State.mk 0 [1] (some 0))).carouselIndices.getD
            (V1.State.mk 0 [1] (some 0)).currentProfileIndex 0 =
        (V1.State.mk 0 [1] (some 0)).carouselIndices.getD
            (V1.State.mk 0 [1] (some 0)).currentProfileIndex 0 - 5)) :=
  ⟨by decide, by decide, by decide,
    C3_carousel_clamp_saturates [3] (V1.State.mk 0 [1] (some 0)) 3 5 (-2)
      (by decide) (by decide) (by decide) (by decide)⟩

/-- Claim C6: on any existing profile, `react(LIKE)` produces exactly the
modal-population trace whose displayed name and QR code are both looked up at
the same `currentProfileIndex`; in particular index 7 yields the name Sara and
the QR path qrCodes/sara.png. -/
theorem C6_dialog_name_qr_same_index (dom : Dom) (s : V2.State)
    (h : s.currentProfileIndex < dom.length) :
    (V2.reactToProfile dom V2.Action.like s).2 =
      [V2.Effect.addFadeOut s.currentProfileIndex, V2.Effect.hideCard s.currentProfileIndex,
        V2.Effect.setMatchTitle 0,
        V2.Effect.setMatchDesc 0 (V2.matchDescText (V2.getCurrentProfileName s.currentProfileIndex)),
        V2.Effect.showModal 0,
        V2.Effect.setQrHtml 0 (V2.qrImgHtml (V2.getCurrentProfileQrCode s.currentProfileIndex)),
        V2.Effect.qrShow 0, V2.Effect.appContainerHide] ∧
    (V2.reactToProfile dom V2.Action.like s).1.qrContent =
      V2.qrImgHtml (V2.getCurrentProfileQrCode s.currentProfileIndex) ∧
    V2.getCurrentProfileName 7 = "Sara" ∧
    V2.getCurrentProfileQrCode 7 = some "qrCodes/sara.png" := by
  refine ⟨?_, ?_, by decide, by decide⟩
  · simp [V2.reactToProfile, V2.showCoffeeModal, if_pos h]
  · simp [V2.reactToProfile, V2.showCoffeeModal, if_pos h]

/-- Witness for C6 at profile index 7 of an 8-profile list. -/
theorem C6_dialog_name_qr_same_index_witness :
    (V2.State.mk 7 0 (some 7) false false "qr" "qr").currentProfileIndex <
      ([1, 1, 1, 1, 1, 1, 1, 1] : Dom).length ∧
    ((V2.reactToProfile [1, 1, 1, 1, 1, 1, 1, 1] V2.Action.like
        (V2.State.mk 7 0 (some 7) false false "qr" "qr")).2 =
      [V2.Effect.addFadeOut 7, V2.Effect.hideCard 7, V2.Effect.setMatchTitle 0,
        V2.Effect.setMatchDesc 0 (V2.matchDescText (V2.getCurrentProfileName 7)),
        V2.Effect.showModal 0,
        V2.Effect.setQrHtml 0 (V2.qrImgHtml (V2.getCurrentProfileQrCode 7)),
        V2.Effect.qrShow 0, V2.Effect.appContainerHide] ∧
      (V2.reactToProfile [1, 1, 1, 1, 1, 1, 1, 1] V2.Action.like
          (V2.State.mk 7 0 (some 7) false false "qr" "qr")).1.qrContent =
        V2.qrImgHtml (V2.getCurrentProfileQrCode 7) ∧
      V2.getCurrentProfileName 7 = "Sara" ∧
      V2.getCurrentProfileQrCode 7 = some "qrCodes/sara.png") :=
  ⟨by decide,
    C6_dialog_name_qr_same_index [1, 1, 1, 1, 1, 1, 1, 1]
      (V2.State.mk 7 0 (some 7) false false "qr" "qr") (by decide)⟩

/-- Claim C7: closing the like dialog from `DialogShown` always returns to
`Idle` (both modal flags false), resets the QR placeholder to its neutral
text, and performs exactly one `goToNext` — the final state is one
`nextProfile` application to the dialog-reset state, so the index advances by
exactly 1 when room remains and is unchanged at the last profile. -/
theorem C7_close_dialog_one_advance (dom : Dom) (s : V2.State)
    (hc : s.coffeeOpen = true) (hr : s.rejectOpen = false) :
    (V2.step dom V2.Event.closeCoffeeBtn s).1.coffeeOpen = false ∧
    (V2.step dom V2.Event.closeCoffeeBtn s).1.rejectOpen = false ∧
    (V2.step dom V2.Event.closeCoffeeBtn s).1.qrContent = "qr" ∧
    (V2.step dom V2.Event.closeCoffeeBtn s).1 =
      (V2.nextProfile dom { s with coffeeOpen := false, qrContent := "qr" }).1 ∧
    (V2.step dom V2.Event.closeCoffeeBtn s).1.currentProfileIndex =
      (if s.currentProfileIndex < dom.length - 1 then s.currentProfileIndex + 1
        else s.currentProfileIndex) := by
  have hstep : V2.step dom V2.Event.closeCoffeeBtn s = V2.closeCoffee dom s := by
    simp [V2.step, hc]
  have h1 : (V2.closeCoffee dom s).1 =
      (V2.nextProfile dom { s with coffeeOpen := false, qrContent := "qr" }).1 := rfl
  obtain ⟨f1, f2, f3, f4⟩ :=
    V2.nextProfile_flags dom { s with coffeeOpen := false, qrContent := "qr" }
  rw [hstep, h1]
  refine ⟨by rw [f1], by rw [f2]; exact hr, by rw [f3], rfl, ?_⟩
  rw [V2.nextProfile_currentProfileIndex]

/-- Witness for C7 with N = 2 and the dialog open on profile 0. -/
theorem C7_close_dialog_one_advance_witness :
    (V2.State.mk 0 0 none true false "x" "qr").coffeeOpen = true ∧
    (V2.State.mk 0 0 none true false "x" "qr").rejectOpen = false ∧
    ((V2.step [1, 2] V2.Event.closeCoffeeBtn
        (V2.State.mk 0 0 none true false "x" "qr")).1.coffeeOpen = false ∧
      (V2.step [1, 2] V2.Event.closeCoffeeBtn
        (V2.State.mk 0 0 none true false "x" "qr")).1.rejectOpen = false ∧
      (V2.step [1, 2] V2.Event.closeCoffeeBtn
        (V2.State.mk 0 0 none true false "x" "qr")).1.qrContent = "qr" ∧
      (V2.step [1, 2] V2.Event.closeCoffeeBtn
        (V2.State.mk 0 0 none true false "x" "qr")).1 =
        (V2.nextProfile [1, 2]
          { V2.State.mk 0 0 none true false "x" "qr" with
              coffeeOpen := false, qrContent := "qr" }).1 ∧
      (V2.step [1, 2] V2.Event.closeCoffeeBtn
        (V2.State.mk 0 0 none true false "x" "qr")).1.currentProfileIndex =
        (if (V2.State.mk 0 0 none true false "x" "qr").currentProfileIndex <
            ([1, 2] : Dom).length - 1 then
          (V2.State.mk 0 0 none true false "x" "qr").currentProfileIndex + 1
        else (V2.State.mk 0 0 none true false "x" "qr").currentProfileIndex)) :=
  ⟨by decide, by decide,
    C7_close_dialog_one_advance [1, 2] (V2.State.mk 0 0 none true false "x" "qr")
      (by decide) (by decide)⟩

/-- Claim C8: with an empty profile list, every operation — navigation,
carousel step, react, and the modal close buttons — is a no-op: any event
sequence from the initial state ends in the initial state and emits no
presentation-layer call at all. -/
theorem C8_empty_list_all_noop (evs : List V2.Event) :
    V2.run [] evs (V2.initState []) = (V2.initState [], []) := by
  have hstep : ∀ e, V2.step [] e (V2.initState []) = (V2.initState [], []) := by
    intro e
    cases e <;> rfl
  induction evs with
  | nil => rfl
  | cons e rest ih =>
      have hcons : V2.run [] (e :: rest) (V2.initState []) =
          ((V2.run [] rest (V2.step [] e (V2.initState [])).1).1,
            (V2.step [] e (V2.initState [])).2 ++
              (V2.run [] rest (V2.step [] e (V2.initState [])).1).2) := rfl
      rw [hcons, hstep e]
      simp [ih]

/-- Claim C9: reacting (LIKE or PASS) on the last profile and then closing the
resulting dialog leaves `activeProfileIndex` at N-1 (the follow-up `goToNext`
saturates), leaves no profile card marked visible, and the close step neither
re-shows a profile nor opens any dialog or end-of-list signal. -/
theorem C9_react_on_last_hides_all (dom : Dom) (s : V2.State)
    (hN : 1 ≤ dom.length)
    (hlast : s.currentProfileIndex = dom.length - 1)
    (hact : s.activeCard = some s.currentProfileIndex)
    (hc : s.coffeeOpen = false) (hr : s.rejectOpen = false) :
    ((V2.step dom V2.Event.closeCoffeeBtn
        (V2.reactToProfile dom V2.Action.like s).1).1.currentProfileIndex =
      dom.length - 1) ∧
    ((V2.step dom V2.Event.closeCoffeeBtn
        (V2.reactToProfile dom V2.Action.like s).1).1.activeCard = none) ∧
    ((V2.step dom V2.Event.closeCoffeeBtn
        (V2.reactToProfile dom V2.Action.like s).1).1.coffeeOpen = false) ∧
    ((V2.step dom V2.Event.closeCoffeeBtn
        (V2.reactToProfile dom V2.Action.like s).1).1.rejectOpen = false) ∧
    (V2.showsProfile (V2.step dom V2.Event.closeCoffeeBtn
        (V2.reactToProfile dom V2.Action.like s).1).2 = false) ∧
    (V2.opensDialog (V2.step dom V2.Event.closeCoffeeBtn
        (V2.reactToProfile dom V2.Action.like s).1).2 = false) ∧
    ((V2.step dom V2.Event.closeRejectBtn
        (V2.reactToProfile dom V2.Action.pass s).1).1.currentProfileIndex =
      dom.length - 1) ∧
    ((V2.step dom V2.Event.closeRejectBtn
        (V2.reactToProfile dom V2.Action.pass s).1).1.activeCard = none) ∧
    ((V2.step dom V2.Event.closeRejectBtn
        (V2.reactToProfile dom V2.Action.pass s).1).1.coffeeOpen = false) ∧
    ((V2.step dom V2.Event.closeRejectBtn
        (V2.reactToProfile dom V2.Action.pass s).1).1.rejectOpen = false) ∧
    (V2.showsProfile (V2.step dom V2.Event.closeRejectBtn
        (V2.reactToProfile dom V2.Action.pass s).1).2 = false) ∧
    (V2.opensDialog (V2.step dom V2.Event.closeRejectBtn
        (V2.reactToProfile dom V2.Action.pass s).1).2 = false) := by
  have hidx : s.currentProfileIndex < dom.length := by omega
  have hlike := V2.reactToProfile_like_fst dom s hidx hact
  have hpass := V2.reactToProfile_pass_fst dom s hidx hact
  have hstepL : V2.step dom V2.Event.closeCoffeeBtn
      (V2.reactToProfile dom V2.Action.like s).1 =
      V2.closeCoffee dom (V2.reactToProfile dom V2.Action.like s).1 := by
    simp [V2.step, hlike]
  have hstepP : V2.step dom V2.Event.closeRejectBtn
      (V2.reactToProfile dom V2.Action.pass s).1 =
      V2.closeReject dom (V2.reactToProfile dom V2.Action.pass s).1 := by
    simp [V2.step, hpass]
  have hcloseL := V2.closeCoffee_at_last dom (V2.reactToProfile dom V2.Action.like s).1
    (by rw [hlike]; exact hlast)
  have hcloseP := V2.closeReject_at_last dom (V2.reactToProfile dom V2.Action.pass s).1
    (by rw [hpass]; exact hlast)
  rw [hstepL, hstepP, hcloseL, hcloseP, hlike, hpass]
  refine ⟨hlast, rfl, rfl, hr, rfl, rfl, hlast, rfl, hc, rfl, rfl, rfl⟩

/-- Witness for C9 with a single profile of one image. -/
theorem C9_react_on_last_hides_all_witness :
    1 ≤ ([1] : Dom).length ∧
    (V2.State.mk 0 0 (some 0) false false "qr" "qr").currentProfileIndex =
      ([1] : Dom).length - 1 ∧
    (V2.State.mk 0 0 (some 0) false false "qr" "qr").activeCard =
      some (V2.State.mk 0 0 (some 0) false false "qr" "qr").currentProfileIndex ∧
    (V2.State.mk 0 0 (some 0) false false "qr" "qr").coffeeOpen = false ∧
    (V2.State.mk 0 0 (some 0) false false "qr" "qr").rejectOpen = false ∧
    (((V2.step [1] V2.Event.closeCoffeeBtn
        (V2.reactToProfile [1] V2.Action.like
          (V2.State.mk 0 0 (some 0) false false "qr" "qr")).1).1.currentProfileIndex =
      ([1] : Dom).length - 1) ∧
    ((V2.step [1] V2.Event.closeCoffeeBtn
        (V2.reactToProfile [1] V2.Action.like
          (V2.State.mk 0 0 (some 0) false false "qr" "qr")).1).1.activeCard = none) ∧
    ((V2.step [1] V2.Event.closeCoffeeBtn
        (V2.reactToProfile [1] V2.Action.like
          (V2.State.mk 0 0 (some 0) false false "qr" "qr")).1).1.coffeeOpen = false) ∧
    ((V2.step [1] V2.Event.closeCoffeeBtn
        (V2.reactToProfile [1] V2.Action.like
          (V2.State.mk 0 0 (some 0) false false "qr" "qr")).1).1.rejectOpen = false) ∧
    (V2.showsProfile (V2.step [1] V2.Event.closeCoffeeBtn
        (V2.reactToProfile [1] V2.Action.like
          (V2.State.mk 0 0 (some 0) false false "qr" "qr")).1).2 = false) ∧
    (V2.opensDialog (V2.step [1] V2.Event.closeCoffeeBtn
        (V2.reactToProfile [1] V2.Action.like
          (V2.State.mk 0 0 (some 0) false false "qr" "qr")).1).2 = false) ∧
    ((V2.step [1] V2.Event.closeRejectBtn
        (V2.reactToProfile [1] V2.Action.pass
          (V2.State.mk 0 0 (some 0) false false "qr" "qr")).1).1.currentProfileIndex =
      ([1] : Dom).length - 1) ∧
    ((V2.step [1] V2.Event.closeRejectBtn
        (V2.reactToProfile [1] V2.Action.pass
          (V2.State.mk 0 0 (some 0) false false "qr" "qr")).1).1.activeCard = none) ∧
    ((V2.step [1] V2.Event.closeRejectBtn
        (V2.reactToProfile [1] V2.Action.pass
          (V2.State.mk 0 0 (some 0) false false "qr" "qr")).1).1.coffeeOpen = false) ∧
    ((V2.step [1] V2.Event.closeRejectBtn
        (V2.reactToProfile [1] V2.Action.pass
          (V2.State.mk 0 0 (some 0) false false "qr" "qr")).1).1.rejectOpen = false) ∧
    (V2.showsProfile (V2.step [1] V2.Event.closeRejectBtn
        (V2.reactToProfile [1] V2.Action.pass
          (V2.State.mk 0 0 (some 0) false false "qr" "qr")).1).2 = false) ∧
    (V2.opensDialog (V2.step [1] V2.Event.closeRejectBtn
        (V2.reactToProfile [1] V2.Action.pass
          (V2.State.mk 0 0 (some 0) false false "qr" "qr")).1).2 = false)) :=
  ⟨by decide, by decide, by decide, by decide, by decide,
    C9_react_on_last_hides_all [1] (V2.State.mk 0 0 (some 0) false false "qr" "qr")
      (by decide) (by decide) (by decide) (by decide) (by decide)⟩

/-- Claim C10: for any active index past the end of the 11-entry name table,
`getCurrentProfileName` falls back to "the intern" while
`getCurrentProfileQrCode` has no fallback and yields `none` (JS `undefined`),
so the like dialog pairs the fallback name with an undefined QR reference. -/
theorem C10_fallback_name_undefined_qr (i : Nat) (s : V2.State)
    (h : V2.profileNames.length ≤ i) (hs : s.currentProfileIndex = i) :
    V2.getCurrentProfileName i = "the intern" ∧
    V2.getCurrentProfileQrCode i = none ∧
    V2.Effect.setMatchDesc 0 (V2.matchDescText "the intern") ∈ (V2.showCoffeeModal s).2 ∧
    (V2.showCoffeeModal s).1.qrContent = V2.qrImgHtml none := by
  have hq : (11 : Nat) ≤ i := by
    simpa [V2.profileNames] using h
  have h1 : V2.profileNames.get? i = none := List.get?_eq_none.mpr h
  have h2 : V2.qrCodes.get? i = none := List.get?_eq_none.mpr (by simp [V2.qrCodes]; omega)
  have hname : V2.getCurrentProfileName i = "the intern" := by
    simp only [V2.getCurrentProfileName, h1]
  have hqr : V2.getCurrentProfileQrCode i = none := h2
  refine ⟨hname, hqr, ?_, ?_⟩
  · simp [V2.showCoffeeModal, hs, hname]
  · simp [V2.showCoffeeModal, hs, hqr]

/-- Witness for C10 at index 11, one past the end of the name table. -/
theorem C10_fallback_name_undefined_qr_witness :
    V2.profileNames.length ≤ 11 ∧
    (V2.State.mk 11 0 none false false "qr" "qr").currentProfileIndex = 11 ∧
    (V2.getCurrentProfileName 11 = "the intern" ∧
      V2.getCurrentProfileQrCode 11 = none ∧
      V2.Effect.setMatchDesc 0 (V2.matchDescText "the intern") ∈
        (V2.showCoffeeModal (V2.State.mk 11 0 none false false "qr" "qr")).2 ∧
      (V2.showCoffeeModal (V2.State.mk 11 0 none false false "qr" "qr")).1.qrContent =
        V2.qrImgHtml none) :=
  ⟨by decide, by decide,
    C10_fallback_name_undefined_qr 11 (V2.State.mk 11 0 none false false "qr" "qr")
      (by decide) (by decide)⟩

end BarbarianIntros
